import Mathlib

/-!
Verification of `scripts/upload_to_play_store.py` (Play Store publisher).

The script is a linear orchestration: parse CLI arguments, check the AAB
file exists, acquire credentials via Application Default Credentials, then
run four remote calls (create edit, upload bundle, assign track, commit)
and exit 0 on success, 1 on failure.

The embedding models the remote publishing service and the ambient
environment (filesystem, environment variables, credential chain) as
oracles, and records the remote calls actually issued as an explicit
trace, so that sequencing and halting properties can be stated.
-/

/-- Response of the create-edit endpoint: the script reads its `id` field. -/
structure EditResponse where
  id : String
deriving DecidableEq

/-- Response of the bundle-upload endpoint: the script reads its
`versionCode` field, a server-assigned integer. -/
structure BundleResponse where
  versionCode : Int
deriving DecidableEq

/-- One element of the `releases` list in the track-update request body. -/
structure TrackRelease where
  versionCodes : List String
  status : String
deriving DecidableEq

/-- Body of the `service.edits().tracks().update(...)` request. -/
structure TrackBody where
  track : String
  releases : List TrackRelease
deriving DecidableEq

/-- Response of the track update: the script reads its `track` field. -/
structure TrackResponse where
  track : String
deriving DecidableEq

/-- Response of `service.edits().commit(...)`: the script reads its `id`. -/
structure CommitResponse where
  id : String
deriving DecidableEq

/-- A remote call issued by the script, with the arguments it was given.
For `commitEdit`, `changesNotSentForReview = true` means the flag was
passed (`changesNotSentForReview=True`); `false` means it was absent. -/
inductive Call where
  | insertEdit (packageName : String)
  | uploadBundle (packageName editId aabPath : String)
  | updateTrack (packageName editId track : String) (body : TrackBody)
  | commitEdit (packageName editId : String) (changesNotSentForReview : Bool)
deriving DecidableEq

/-- Oracle for the remote Play publishing service: for each endpoint, what
it would answer when called with the given arguments.  An `Except.error`
models the Python client raising an exception on `execute()`. -/
structure PlayService where
  insertEdit : String → Except String EditResponse
  uploadBundle : String → String → String → Except String BundleResponse
  updateTrack : String → String → String → TrackBody → Except String TrackResponse
  commitEdit : String → String → Bool → Except String CommitResponse

/-- Function `should_hold_for_manual_review` from the script: hold only
for the production track. -/
def should_hold_for_manual_review (track : String) : Bool :=
  track == "production"

/-- The request body built at the track-assignment step: the requested
track together with a single release carrying the stringified version
code and the status string completed. -/
def trackBodyFor (track : String) (version_code : Int) : TrackBody :=
  ⟨track, [⟨[toString version_code], "completed"⟩]⟩

/-- Outcome of `upload_to_play_store`: the returned boolean, the trace of
remote calls issued, and the version code the script printed after the
upload step (none while the upload step has not succeeded). -/
structure UploadResult where
  success : Bool
  calls : List Call
  reportedVersionCode : Option Int
deriving DecidableEq

/-- Function `upload_to_play_store` from the script.  The four remote calls are
issued in order; any `Except.error` models the exception that the
enclosing `try` catches, making the function return `False` at that point
with no further calls. -/
def upload_to_play_store (aab_path package_name track : String)
    (service : PlayService) : UploadResult :=
  let c1 := Call.insertEdit package_name
  match service.insertEdit package_name with
  | .error _ => ⟨false, [c1], none⟩
  | .ok edit =>
    let edit_id := edit.id
    let c2 := Call.uploadBundle package_name edit_id aab_path
    match service.uploadBundle package_name edit_id aab_path with
    | .error _ => ⟨false, [c1, c2], none⟩
    | .ok bundle_response =>
      let version_code := bundle_response.versionCode
      let body := trackBodyFor track version_code
      let c3 := Call.updateTrack package_name edit_id track body
      match service.updateTrack package_name edit_id track body with
      | .error _ => ⟨false, [c1, c2, c3], some version_code⟩
      | .ok _ =>
        let hold := should_hold_for_manual_review track
        let c4 := Call.commitEdit package_name edit_id hold
        match service.commitEdit package_name edit_id hold with
        | .error _ => ⟨false, [c1, c2, c3, c4], some version_code⟩
        | .ok _ => ⟨true, [c1, c2, c3, c4], some version_code⟩

/-- Fields of the parsed credentials JSON file that the failure path
reads: the `type` field (printed as unknown when absent) and the
optional `audience` field. -/
structure CredsInfo where
  type? : Option String
  audience? : Option String
deriving DecidableEq

/-- One diagnostic line printed by the failure path of `get_credentials`. -/
inductive Diag where
  | credFile (path : String)
  | credTypeInFile (ty : String)
  | credAudience (aud : String)
  | unreadableFile
  | fileDoesNotExist
  | envNotSet
deriving DecidableEq

/-- The credential object returned by `google.auth.default()`: whether it
is already valid, and whether a `refresh()` call would succeed. -/
structure Cred where
  valid : Bool
  refreshOk : Bool
deriving DecidableEq

/-- Ambient environment of `get_credentials`: the outcome of the default
credential chain, the `GOOGLE_APPLICATION_CREDENTIALS` variable, and the
state of the file it points at (`credsFileExists` for `os.path.exists`,
`credsFileInfo = none` when the file cannot be read or parsed as JSON). -/
structure AuthEnv where
  defaultResult : Except String Cred
  googleApplicationCredentials : Option String
  credsFileExists : Bool
  credsFileInfo : Option CredsInfo

/-- The diagnostic lines printed by the `except` branch of
`get_credentials`, in order. -/
def authFailDiags (env : AuthEnv) : List Diag :=
  match env.googleApplicationCredentials with
  | some path =>
    if env.credsFileExists then
      match env.credsFileInfo with
      | some info =>
        [Diag.credFile path, Diag.credTypeInFile (info.type?.getD "unknown")]
          ++ (match info.audience? with
              | some aud => [Diag.credAudience aud]
              | none => [])
      | none => [Diag.credFile path, Diag.unreadableFile]
    else [Diag.credFile path, Diag.fileDoesNotExist]
  | none => [Diag.envNotSet]

/-- Outcome of `get_credentials`: how many times `google.auth.default()`
was invoked, and either the credentials or the diagnostics printed before
`sys.exit(1)`. -/
structure AuthResult where
  defaultCalls : Nat
  outcome : Except (List Diag) Cred

/-- Function `get_credentials` from the script: one call to `default()`, an
optional `refresh()` when the credentials are not yet valid, and on any
exception the diagnostic block followed by `sys.exit(1)`. -/
def get_credentials (env : AuthEnv) : AuthResult :=
  match env.defaultResult with
  | .error _ => ⟨1, .error (authFailDiags env)⟩
  | .ok credentials =>
    if credentials.valid then ⟨1, .ok credentials⟩
    else if credentials.refreshOk then ⟨1, .ok { credentials with valid := true }⟩
    else ⟨1, .error (authFailDiags env)⟩

/-- Whether `get_credentials` succeeds in the given environment. -/
def authSucceeds (env : AuthEnv) : Bool :=
  match (get_credentials env).outcome with
  | .ok _ => true
  | .error _ => false

/-- Command-line flags as supplied by the caller: `none` means the flag
was absent. -/
structure Args where
  aab : Option String
  packageName : Option String
  track : Option String

/-- The argument record produced by a successful `parser.parse_args()`. -/
structure ParsedArgs where
  aab : String
  packageName : String
  track : String
deriving DecidableEq

/-- The argparse configuration of `main`: `--aab` and `--package-name`
are `required=True` (parsing errors out when either is absent), `--track`
defaults to `"internal"`. -/
def parseArgs (a : Args) : Option ParsedArgs :=
  match a.aab, a.packageName with
  | some aabPath, some pkg => some ⟨aabPath, pkg, a.track.getD "internal"⟩
  | _, _ => none

/-- The whole ambient world of one run: the filesystem check
`Path(args.aab).exists()`, the credential environment, and the remote
service. -/
structure World where
  aabExists : String → Bool
  auth : AuthEnv
  service : PlayService

/-- Observable outcome of one run of `main`: the process exit code, the
number of credential-acquisition attempts, the remote calls issued, the
version code reported by the upload step, and the credential diagnostics
printed (empty unless credential acquisition failed). -/
structure MainResult where
  exitCode : Nat
  defaultCalls : Nat
  calls : List Call
  reportedVersionCode : Option Int
  diags : List Diag
deriving DecidableEq

namespace Script

/-- Function `main` from the script: parse arguments (argparse exits with status 2
on a missing required flag), validate that the AAB file exists (exit 1),
acquire credentials (exit 1 on failure), run the publish sequence, and
exit 0 on success, 1 on failure. -/
def main (args : Args) (w : World) : MainResult :=
  match parseArgs args with
  | none => ⟨2, 0, [], none, []⟩
  | some parsed =>
    if w.aabExists parsed.aab then
      let auth := get_credentials w.auth
      match auth.outcome with
      | .error ds => ⟨1, auth.defaultCalls, [], none, ds⟩
      | .ok _ =>
        let result := upload_to_play_store parsed.aab parsed.packageName parsed.track w.service
        ⟨if result.success then 0 else 1, auth.defaultCalls,
          result.calls, result.reportedVersionCode, []⟩
    else ⟨1, 0, [], none, []⟩

end Script

/-! ### Concrete oracles used to exercise the model -/

/-- A remote service that answers every call successfully. -/
def svcAllOk : PlayService :=
  ⟨fun _ => .ok ⟨"edit1"⟩,
   fun _ _ _ => .ok ⟨42⟩,
   fun _ _ _ _ => .ok ⟨"internal"⟩,
   fun _ _ _ => .ok ⟨"edit1"⟩⟩

/-- A remote service whose create-edit call fails. -/
def svcFailInsert : PlayService :=
  ⟨fun _ => .error "insert failed",
   fun _ _ _ => .ok ⟨42⟩,
   fun _ _ _ _ => .ok ⟨"internal"⟩,
   fun _ _ _ => .ok ⟨"edit1"⟩⟩

/-- A remote service whose bundle-upload call fails. -/
def svcFailUpload : PlayService :=
  ⟨fun _ => .ok ⟨"edit1"⟩,
   fun _ _ _ => .error "upload failed",
   fun _ _ _ _ => .ok ⟨"internal"⟩,
   fun _ _ _ => .ok ⟨"edit1"⟩⟩

/-- A remote service whose track-update call fails. -/
def svcFailTrack : PlayService :=
  ⟨fun _ => .ok ⟨"edit1"⟩,
   fun _ _ _ => .ok ⟨42⟩,
   fun _ _ _ _ => .error "track failed",
   fun _ _ _ => .ok ⟨"edit1"⟩⟩

/-- A remote service whose commit call fails. -/
def svcFailCommit : PlayService :=
  ⟨fun _ => .ok ⟨"edit1"⟩,
   fun _ _ _ => .ok ⟨42⟩,
   fun _ _ _ _ => .ok ⟨"internal"⟩,
   fun _ _ _ => .error "commit failed"⟩

/-- A credential environment in which authentication succeeds. -/
def authEnvOk : AuthEnv := ⟨.ok ⟨true, true⟩, none, false, none⟩

/-- A failing credential environment with no
`GOOGLE_APPLICATION_CREDENTIALS` variable set. -/
def authEnvFailNoVar : AuthEnv := ⟨.error "auth failed", none, false, none⟩

/-- A failing credential environment whose credentials file is set,
present and parses as a JSON object with a `type` field. -/
def authEnvFailWithFile : AuthEnv :=
  ⟨.error "auth failed", some "/tmp/creds.json", true,
   some ⟨some "external_account", some "aud1"⟩⟩

/-! ### Shared trace lemmas about the publish sequence -/

/-- Any commit call in the trace carries the hold flag computed by
`should_hold_for_manual_review` on the requested track. -/
theorem commit_call_hold_eq (aab_path package_name track : String) (s : PlayService)
    (p e : String) (hold : Bool)
    (h : Call.commitEdit p e hold ∈ (upload_to_play_store aab_path package_name track s).calls) :
    hold = should_hold_for_manual_review track := by
  unfold upload_to_play_store at h
  cases hi : s.insertEdit package_name with
  | error err => simp [hi] at h
  | ok edit =>
    cases hu : s.uploadBundle package_name edit.id aab_path with
    | error err => simp [hi, hu] at h
    | ok bundle_response =>
      cases ht : s.updateTrack package_name edit.id track
          (trackBodyFor track bundle_response.versionCode) with
      | error err => simp [hi, hu, ht] at h
      | ok tr =>
        cases hc : s.commitEdit package_name edit.id
            (should_hold_for_manual_review track) with
        | error err =>
          simp [hi, hu, ht, hc] at h
          exact h.2.2
        | ok cr =>
          simp [hi, hu, ht, hc] at h
          exact h.2.2

/-- Any track-update call in the trace targets the requested package and
track and carries the version code returned by the preceding bundle
upload, with release status `"completed"`. -/
theorem updateTrack_call_form (aab_path package_name track : String) (s : PlayService)
    (p e tr : String) (body : TrackBody)
    (h : Call.updateTrack p e tr body ∈ (upload_to_play_store aab_path package_name track s).calls) :
    p = package_name ∧ tr = track ∧
    ∃ edit bundle_response,
      s.insertEdit package_name = .ok edit ∧ e = edit.id ∧
      s.uploadBundle package_name edit.id aab_path = .ok bundle_response ∧
      body.track = track ∧
      body.releases = [⟨[toString bundle_response.versionCode], "completed"⟩] := by
  unfold upload_to_play_store at h
  cases hi : s.insertEdit package_name with
  | error err => simp [hi] at h
  | ok edit =>
    cases hu : s.uploadBundle package_name edit.id aab_path with
    | error err => simp [hi, hu] at h
    | ok bundle_response =>
      cases ht : s.updateTrack package_name edit.id track
          (trackBodyFor track bundle_response.versionCode) with
      | error err =>
        simp [hi, hu, ht] at h
        refine ⟨h.1, h.2.2.1, edit, bundle_response, ?_, h.2.1, ?_, ?_, ?_⟩ <;>
          first
            | rfl
            | exact hi
            | exact hu
            | (rw [h.2.2.2]; exact rfl)
      | ok tr2 =>
        cases hc : s.commitEdit package_name edit.id
            (should_hold_for_manual_review track) with
        | error err =>
          simp [hi, hu, ht, hc] at h
          refine ⟨h.1, h.2.2.1, edit, bundle_response, ?_, h.2.1, ?_, ?_, ?_⟩ <;>
            first
              | rfl
              | exact hi
              | exact hu
              | (rw [h.2.2.2]; exact rfl)
        | ok cr =>
          simp [hi, hu, ht, hc] at h
          refine ⟨h.1, h.2.2.1, edit, bundle_response, ?_, h.2.1, ?_, ?_, ?_⟩ <;>
            first
              | rfl
              | exact hi
              | exact hu
              | (rw [h.2.2.2]; exact rfl)

/-- A successful publish run created an edit, uploaded the bundle
obtaining a version code, issued the track update for that version code,
and committed; the reported version code is the uploaded one. -/
theorem success_run_shape (aab_path package_name track : String) (s : PlayService)
    (h : (upload_to_play_store aab_path package_name track s).success = true) :
    ∃ edit bundle_response,
      s.insertEdit package_name = .ok edit ∧
      s.uploadBundle package_name edit.id aab_path = .ok bundle_response ∧
      (upload_to_play_store aab_path package_name track s).reportedVersionCode
        = some bundle_response.versionCode ∧
      (upload_to_play_store aab_path package_name track s).calls
        = [Call.insertEdit package_name,
           Call.uploadBundle package_name edit.id aab_path,
           Call.updateTrack package_name edit.id track
             (trackBodyFor track bundle_response.versionCode),
           Call.commitEdit package_name edit.id
             (should_hold_for_manual_review track)] := by
  unfold upload_to_play_store at h ⊢
  cases hi : s.insertEdit package_name with
  | error err => simp [hi] at h
  | ok edit =>
    cases hu : s.uploadBundle package_name edit.id aab_path with
    | error err => simp [hi, hu] at h
    | ok bundle_response =>
      cases ht : s.updateTrack package_name edit.id track
          (trackBodyFor track bundle_response.versionCode) with
      | error err => simp [hi, hu, ht] at h
      | ok tr =>
        cases hc : s.commitEdit package_name edit.id
            (should_hold_for_manual_review track) with
        | error err => simp [hi, hu, ht, hc] at h
        | ok cr =>
          refine ⟨edit, bundle_response, ?_, ?_, ?_, ?_⟩ <;>
            first
              | rfl
              | exact hi
              | exact hu
              | simp [hi, hu, ht, hc]

/-! ### Claims -/

/-- Claim C1: for every run reaching the commit step, the commit call is
invoked with the manual-review-hold flag (`changesNotSentForReview`) when
the requested track equals `"production"`, and without that flag for
every other track value. -/
theorem C1_commit_hold_flag (aab_path package_name track : String) (s : PlayService)
    (p e : String) (hold : Bool)
    (h : Call.commitEdit p e hold ∈ (upload_to_play_store aab_path package_name track s).calls) :
    (track = "production" → hold = true) ∧ (track ≠ "production" → hold = false) := by
  have hh := commit_call_hold_eq aab_path package_name track s p e hold h
  constructor
  · intro ht
    subst ht
    simpa [should_hold_for_manual_review] using hh
  · intro ht
    rw [hh]
    simpa [should_hold_for_manual_review] using ht

/-- Witness for C1: a concrete production-track run reaches the commit
step and its commit call carries the hold flag. -/
theorem C1_commit_hold_flag_witness :
    (("production" : String) = "production" → true = true) ∧
      (("production" : String) ≠ "production" → true = false) :=
  C1_commit_hold_flag "app.aab" "com.pkg" "production" svcAllOk "com.pkg" "edit1" true
    (by decide)

/-- Claim C2: an error at any one of the four remote calls halts the
publish sequence at that call: the trace ends with the failing call and
no subsequent remote call is issued. -/
theorem C2_halt_on_failure (aab_path package_name track : String) (s : PlayService) :
    (∀ err, s.insertEdit package_name = .error err →
      (upload_to_play_store aab_path package_name track s).calls
        = [Call.insertEdit package_name]) ∧
    (∀ edit err, s.insertEdit package_name = .ok edit →
      s.uploadBundle package_name edit.id aab_path = .error err →
      (upload_to_play_store aab_path package_name track s).calls
        = [Call.insertEdit package_name,
           Call.uploadBundle package_name edit.id aab_path]) ∧
    (∀ edit bundle_response err, s.insertEdit package_name = .ok edit →
      s.uploadBundle package_name edit.id aab_path = .ok bundle_response →
      s.updateTrack package_name edit.id track
          (trackBodyFor track bundle_response.versionCode) = .error err →
      (upload_to_play_store aab_path package_name track s).calls
        = [Call.insertEdit package_name,
           Call.uploadBundle package_name edit.id aab_path,
           Call.updateTrack package_name edit.id track
             (trackBodyFor track bundle_response.versionCode)]) ∧
    (∀ edit bundle_response tr err, s.insertEdit package_name = .ok edit →
      s.uploadBundle package_name edit.id aab_path = .ok bundle_response →
      s.updateTrack package_name edit.id track
          (trackBodyFor track bundle_response.versionCode) = .ok tr →
      s.commitEdit package_name edit.id (should_hold_for_manual_review track)
        = .error err →
      (upload_to_play_store aab_path package_name track s).success = false ∧
      (upload_to_play_store aab_path package_name track s).calls
        = [Call.insertEdit package_name,
           Call.uploadBundle package_name edit.id aab_path,
           Call.updateTrack package_name edit.id track
             (trackBodyFor track bundle_response.versionCode),
           Call.commitEdit package_name edit.id
             (should_hold_for_manual_review track)]) := by
  refine ⟨?_, ?_, ?_, ?_⟩
  · intro err hi
    simp [upload_to_play_store, hi]
  · intro edit err hi hu
    simp [upload_to_play_store, hi, hu]
  · intro edit bundle_response err hi hu ht
    simp [upload_to_play_store, hi, hu, ht]
  · intro edit bundle_response tr err hi hu ht hc
    simp [upload_to_play_store, hi, hu, ht, hc]

/-- Witness for C2: four concrete services, each failing at a different
step, halt the sequence with exactly the expected trace. -/
theorem C2_halt_on_failure_witness :
    (upload_to_play_store "app.aab" "com.pkg" "internal" svcFailInsert).calls
        = [Call.insertEdit "com.pkg"] ∧
    (upload_to_play_store "app.aab" "com.pkg" "internal" svcFailUpload).calls
        = [Call.insertEdit "com.pkg",
           Call.uploadBundle "com.pkg" "edit1" "app.aab"] ∧
    (upload_to_play_store "app.aab" "com.pkg" "internal" svcFailTrack).calls
        = [Call.insertEdit "com.pkg",
           Call.uploadBundle "com.pkg" "edit1" "app.aab",
           Call.updateTrack "com.pkg" "edit1" "internal" (trackBodyFor "internal" 42)] ∧
    ((upload_to_play_store "app.aab" "com.pkg" "internal" svcFailCommit).success = false ∧
     (upload_to_play_store "app.aab" "com.pkg" "internal" svcFailCommit).calls
        = [Call.insertEdit "com.pkg",
           Call.uploadBundle "com.pkg" "edit1" "app.aab",
           Call.updateTrack "com.pkg" "edit1" "internal" (trackBodyFor "internal" 42),
           Call.commitEdit "com.pkg" "edit1"
             (should_hold_for_manual_review "internal")]) :=
  ⟨(C2_halt_on_failure "app.aab" "com.pkg" "internal" svcFailInsert).1
      "insert failed" rfl,
   (C2_halt_on_failure "app.aab" "com.pkg" "internal" svcFailUpload).2.1
      ⟨"edit1"⟩ "upload failed" rfl rfl,
   (C2_halt_on_failure "app.aab" "com.pkg" "internal" svcFailTrack).2.2.1
      ⟨"edit1"⟩ ⟨42⟩ "track failed" rfl rfl rfl,
   (C2_halt_on_failure "app.aab" "com.pkg" "internal" svcFailCommit).2.2.2
      ⟨"edit1"⟩ ⟨42⟩ ⟨"internal"⟩ "commit failed" rfl rfl rfl rfl⟩

/-- Claim C3: on a fully successful run the reported version code equals
the value returned by the upload step, and that same value is passed to
the track-assignment step. -/
theorem C3_version_code_flow (aab_path package_name track : String) (s : PlayService)
    (h : (upload_to_play_store aab_path package_name track s).success = true) :
    ∃ (edit : EditResponse) (bundle_response : BundleResponse),
      s.uploadBundle package_name edit.id aab_path = .ok bundle_response ∧
      (upload_to_play_store aab_path package_name track s).reportedVersionCode
        = some bundle_response.versionCode ∧
      Call.updateTrack package_name edit.id track
          (trackBodyFor track bundle_response.versionCode)
        ∈ (upload_to_play_store aab_path package_name track s).calls := by
  obtain ⟨edit, b, hi, hu, hrep, hcalls⟩ :=
    success_run_shape aab_path package_name track s h
  exact ⟨edit, b, hu, hrep, by rw [hcalls]; simp⟩

/-- Witness for C3: a concrete fully successful run. -/
theorem C3_version_code_flow_witness :
    (upload_to_play_store "app.aab" "com.pkg" "internal" svcAllOk).success = true ∧
    ∃ (edit : EditResponse) (bundle_response : BundleResponse),
      svcAllOk.uploadBundle "com.pkg" edit.id "app.aab" = .ok bundle_response ∧
      (upload_to_play_store "app.aab" "com.pkg" "internal" svcAllOk).reportedVersionCode
        = some bundle_response.versionCode ∧
      Call.updateTrack "com.pkg" edit.id "internal"
          (trackBodyFor "internal" bundle_response.versionCode)
        ∈ (upload_to_play_store "app.aab" "com.pkg" "internal" svcAllOk).calls :=
  ⟨rfl, C3_version_code_flow "app.aab" "com.pkg" "internal" svcAllOk rfl⟩

/-- Claim C4: when the `--aab` argument names a non-existent file the run
exits 1 before any network activity: no credential acquisition and no
remote publishing call. -/
theorem C4_missing_aab_exits_first (args : Args) (w : World) (parsed : ParsedArgs)
    (hp : parseArgs args = some parsed)
    (hne : w.aabExists parsed.aab = false) :
    (Script.main args w).exitCode = 1 ∧
    (Script.main args w).defaultCalls = 0 ∧
    (Script.main args w).calls = [] := by
  refine ⟨?_, ?_, ?_⟩ <;> simp [Script.main, hp, hne]

/-- Standard command line used by the concrete runs below. -/
def argsStd : Args := ⟨some "app.aab", some "com.pkg", none⟩

/-- A world whose AAB file is missing. -/
def worldNoFile : World := ⟨fun _ => false, authEnvOk, svcAllOk⟩

/-- Witness for C4: a concrete run on a missing AAB file. -/
theorem C4_missing_aab_exits_first_witness :
    (Script.main argsStd worldNoFile).exitCode = 1 ∧
    (Script.main argsStd worldNoFile).defaultCalls = 0 ∧
    (Script.main argsStd worldNoFile).calls = [] :=
  C4_missing_aab_exits_first argsStd worldNoFile ⟨"app.aab", "com.pkg", "internal"⟩
    rfl rfl

/-- A world in which everything succeeds. -/
def worldAllOk : World := ⟨fun _ => true, authEnvOk, svcAllOk⟩

/-- Claim C5: for every run with parsed arguments, the exit code is 0
exactly when the artifact exists, credentials are acquired and all four
publish steps succeed, and 1 exactly when the artifact is missing, the
credential acquisition fails, or the publish sequence fails. -/
theorem C5_exit_codes (args : Args) (w : World) (parsed : ParsedArgs)
    (hp : parseArgs args = some parsed) :
    ((Script.main args w).exitCode = 0 ↔
      (w.aabExists parsed.aab = true ∧ authSucceeds w.auth = true ∧
       (upload_to_play_store parsed.aab parsed.packageName parsed.track
          w.service).success = true)) ∧
    ((Script.main args w).exitCode = 1 ↔
      (w.aabExists parsed.aab = false ∨
       (w.aabExists parsed.aab = true ∧ authSucceeds w.auth = false) ∨
       (w.aabExists parsed.aab = true ∧ authSucceeds w.auth = true ∧
        (upload_to_play_store parsed.aab parsed.packageName parsed.track
           w.service).success = false))) := by
  cases he : w.aabExists parsed.aab with
  | false => simp [Script.main, hp, he, authSucceeds]
  | true =>
    cases ho : (get_credentials w.auth).outcome with
    | error ds => simp [Script.main, hp, he, authSucceeds, ho]
    | ok c =>
      cases hs : (upload_to_play_store parsed.aab parsed.packageName parsed.track
          w.service).success with
      | false => simp [Script.main, hp, he, authSucceeds, ho, hs]
      | true => simp [Script.main, hp, he, authSucceeds, ho, hs]

/-- Witness for C5: a concrete fully successful run exits 0. -/
theorem C5_exit_codes_witness :
    ((Script.main argsStd worldAllOk).exitCode = 0 ↔
      (worldAllOk.aabExists "app.aab" = true ∧ authSucceeds worldAllOk.auth = true ∧
       (upload_to_play_store "app.aab" "com.pkg" "internal"
          worldAllOk.service).success = true)) ∧
    ((Script.main argsStd worldAllOk).exitCode = 1 ↔
      (worldAllOk.aabExists "app.aab" = false ∨
       (worldAllOk.aabExists "app.aab" = true ∧ authSucceeds worldAllOk.auth = false) ∨
       (worldAllOk.aabExists "app.aab" = true ∧ authSucceeds worldAllOk.auth = true ∧
        (upload_to_play_store "app.aab" "com.pkg" "internal"
           worldAllOk.service).success = false))) :=
  C5_exit_codes argsStd worldAllOk ⟨"app.aab", "com.pkg", "internal"⟩ rfl

/-- The function `get_credentials` performs exactly one invocation of the default
credential chain, whatever happens. -/
theorem get_credentials_defaultCalls (env : AuthEnv) :
    (get_credentials env).defaultCalls = 1 := by
  obtain ⟨dr, gac, fe, fi⟩ := env
  cases dr with
  | error e => rfl
  | ok c =>
    by_cases hv : c.valid <;> by_cases hr : c.refreshOk <;>
      simp [get_credentials, hv, hr]

/-- When credential acquisition fails, the outcome carries exactly the
diagnostic block of the failure path. -/
theorem get_credentials_error_diags (env : AuthEnv) (h : authSucceeds env = false) :
    (get_credentials env).outcome = .error (authFailDiags env) := by
  unfold authSucceeds at h
  obtain ⟨dr, gac, fe, fi⟩ := env
  cases dr with
  | error e => rfl
  | ok c =>
    by_cases hv : c.valid
    · simp [get_credentials, hv] at h
    · by_cases hr : c.refreshOk
      · simp [get_credentials, hv, hr] at h
      · simp [get_credentials, hv, hr]

/-- Whether a diagnostic block mentions the credential source path. -/
def mentionsCredPath (ds : List Diag) : Bool :=
  ds.any fun d =>
    match d with
    | Diag.credFile _ => true
    | _ => false

/-- Whether a diagnostic block mentions a detected credential kind. -/
def mentionsCredKind (ds : List Diag) : Bool :=
  ds.any fun d =>
    match d with
    | Diag.credTypeInFile _ => true
    | _ => false

/-- A world whose credential acquisition fails with no
`GOOGLE_APPLICATION_CREDENTIALS` variable set. -/
def worldAuthFailNoVar : World := ⟨fun _ => true, authEnvFailNoVar, svcAllOk⟩

/-- A world whose credential acquisition fails with a configured,
present and readable credentials file. -/
def worldAuthFailWithFile : World := ⟨fun _ => true, authEnvFailWithFile, svcAllOk⟩

/-- Counterexample to C6 as stated: in a failing run whose
`GOOGLE_APPLICATION_CREDENTIALS` variable is unset, the run is fatal
(exit 1) but the diagnostics contain neither a credential source path nor
a detected credential kind — only the message that the variable is
unset. -/
theorem C6_counterexample :
    authSucceeds authEnvFailNoVar = false ∧
    (get_credentials authEnvFailNoVar).outcome = Except.error [Diag.envNotSet] ∧
    mentionsCredPath [Diag.envNotSet] = false ∧
    mentionsCredKind [Diag.envNotSet] = false ∧
    (Script.main argsStd worldAuthFailNoVar).exitCode = 1 ∧
    (Script.main argsStd worldAuthFailNoVar).diags = [Diag.envNotSet] :=
  ⟨rfl, rfl, rfl, rfl, rfl, rfl⟩

/-- Claim C6 (amended): a credential-acquisition failure is immediately
fatal — the process exits 1 after a single acquisition attempt, with no
retry and no remote call — and the diagnostics reported to the caller
include the credential source path and the detected credential kind
whenever a credentials file is configured, present and readable; when no
credential source is configured, the diagnostics instead say so. -/
theorem C6_auth_failure_fatal (args : Args) (w : World) (parsed : ParsedArgs)
    (hp : parseArgs args = some parsed)
    (hex : w.aabExists parsed.aab = true)
    (hfail : authSucceeds w.auth = false) :
    (Script.main args w).exitCode = 1 ∧
    (Script.main args w).defaultCalls = 1 ∧
    (Script.main args w).calls = [] ∧
    (Script.main args w).diags = authFailDiags w.auth ∧
    (∀ path info, w.auth.googleApplicationCredentials = some path →
      w.auth.credsFileExists = true → w.auth.credsFileInfo = some info →
      Diag.credFile path ∈ (Script.main args w).diags ∧
      Diag.credTypeInFile (info.type?.getD "unknown") ∈ (Script.main args w).diags) ∧
    (w.auth.googleApplicationCredentials = none →
      (Script.main args w).diags = [Diag.envNotSet]) := by
  have herr := get_credentials_error_diags w.auth hfail
  have hd : (Script.main args w).diags = authFailDiags w.auth := by
    simp [Script.main, hp, hex, herr]
  refine ⟨by simp [Script.main, hp, hex, herr],
    by simp [Script.main, hp, hex, herr, get_credentials_defaultCalls],
    by simp [Script.main, hp, hex, herr], hd, ?_, ?_⟩
  · intro path info hpath hfe hinfo
    rw [hd]
    cases ha : info.audience? <;>
      constructor <;> simp [authFailDiags, hpath, hfe, hinfo, ha]
  · intro hnone
    rw [hd]
    simp [authFailDiags, hnone]

/-- Witness for the amended C6: a concrete failing run with a configured
and readable credentials file reports its path and kind and exits 1
after one acquisition attempt. -/
theorem C6_auth_failure_fatal_witness :
    (Script.main argsStd worldAuthFailWithFile).exitCode = 1 ∧
    (Script.main argsStd worldAuthFailWithFile).defaultCalls = 1 ∧
    Diag.credFile "/tmp/creds.json" ∈ (Script.main argsStd worldAuthFailWithFile).diags ∧
    Diag.credTypeInFile "external_account"
      ∈ (Script.main argsStd worldAuthFailWithFile).diags :=
  have h := C6_auth_failure_fatal argsStd worldAuthFailWithFile
    ⟨"app.aab", "com.pkg", "internal"⟩ rfl rfl rfl
  ⟨h.1, h.2.1,
   (h.2.2.2.2.1 "/tmp/creds.json" ⟨some "external_account", some "aud1"⟩ rfl rfl rfl).1,
   (h.2.2.2.2.1 "/tmp/creds.json" ⟨some "external_account", some "aud1"⟩ rfl rfl rfl).2⟩

/-- Whether a call is a create-edit call. -/
def isInsertEditCall : Call → Bool
  | Call.insertEdit _ => true
  | _ => false

/-- Whether a call is a bundle-upload call. -/
def isUploadBundleCall : Call → Bool
  | Call.uploadBundle _ _ _ => true
  | _ => false

/-- Whether a call is a track-update call. -/
def isUpdateTrackCall : Call → Bool
  | Call.updateTrack _ _ _ _ => true
  | _ => false

/-- Whether a call is a commit call. -/
def isCommitEditCall : Call → Bool
  | Call.commitEdit _ _ _ => true
  | _ => false

/-- Claim C7: every run issues at most one call of each kind — in
particular at most one create-edit call, and no step is ever retried —
and on success the created edit is the one committed. -/
theorem C7_single_transaction (aab_path package_name track : String) (s : PlayService) :
    ((upload_to_play_store aab_path package_name track s).calls.countP
        isInsertEditCall ≤ 1) ∧
    ((upload_to_play_store aab_path package_name track s).calls.countP
        isUploadBundleCall ≤ 1) ∧
    ((upload_to_play_store aab_path package_name track s).calls.countP
        isUpdateTrackCall ≤ 1) ∧
    ((upload_to_play_store aab_path package_name track s).calls.countP
        isCommitEditCall ≤ 1) ∧
    ((upload_to_play_store aab_path package_name track s).success = true →
      ∃ edit, s.insertEdit package_name = .ok edit ∧
        Call.commitEdit package_name edit.id (should_hold_for_manual_review track)
          ∈ (upload_to_play_store aab_path package_name track s).calls) := by
  unfold upload_to_play_store
  cases hi : s.insertEdit package_name with
  | error err =>
    refine ⟨?_, ?_, ?_, ?_, ?_⟩ <;>
      simp [hi, List.countP_cons, isInsertEditCall, isUploadBundleCall,
        isUpdateTrackCall, isCommitEditCall]
  | ok edit =>
    cases hu : s.uploadBundle package_name edit.id aab_path with
    | error err =>
      refine ⟨?_, ?_, ?_, ?_, ?_⟩ <;>
        simp [hi, hu, List.countP_cons, isInsertEditCall, isUploadBundleCall,
          isUpdateTrackCall, isCommitEditCall]
    | ok bundle_response =>
      cases ht : s.updateTrack package_name edit.id track
          (trackBodyFor track bundle_response.versionCode) with
      | error err =>
        refine ⟨?_, ?_, ?_, ?_, ?_⟩ <;>
          simp [hi, hu, ht, List.countP_cons, isInsertEditCall, isUploadBundleCall,
            isUpdateTrackCall, isCommitEditCall]
      | ok tr =>
        cases hc : s.commitEdit package_name edit.id
            (should_hold_for_manual_review track) with
        | error err =>
          refine ⟨?_, ?_, ?_, ?_, ?_⟩ <;>
            simp [hi, hu, ht, hc, List.countP_cons, isInsertEditCall,
              isUploadBundleCall, isUpdateTrackCall, isCommitEditCall]
        | ok cr =>
          refine ⟨?_, ?_, ?_, ?_, ?_⟩ <;>
            simp [hi, hu, ht, hc, List.countP_cons, isInsertEditCall,
              isUploadBundleCall, isUpdateTrackCall, isCommitEditCall]

/-- Witness for C7: the success clause at a concrete successful run. -/
theorem C7_single_transaction_witness :
    ∃ edit, svcAllOk.insertEdit "com.pkg" = .ok edit ∧
      Call.commitEdit "com.pkg" edit.id (should_hold_for_manual_review "internal")
        ∈ (upload_to_play_store "app.aab" "com.pkg" "internal" svcAllOk).calls :=
  (C7_single_transaction "app.aab" "com.pkg" "internal" svcAllOk).2.2.2.2 rfl

/-- Claim C8: every track-update request issued by a run associates the
version code returned by the bundle upload with the requested track,
using release status "completed". -/
theorem C8_track_assignment (aab_path package_name track : String) (s : PlayService)
    (p e tr : String) (body : TrackBody)
    (h : Call.updateTrack p e tr body
      ∈ (upload_to_play_store aab_path package_name track s).calls) :
    tr = track ∧ body.track = track ∧
    ∃ (edit : EditResponse) (bundle_response : BundleResponse),
      s.uploadBundle package_name edit.id aab_path = .ok bundle_response ∧
      body.releases = [⟨[toString bundle_response.versionCode], "completed"⟩] := by
  obtain ⟨hp2, htr, edit, b, hi, he, hu, hbt, hbr⟩ :=
    updateTrack_call_form aab_path package_name track s p e tr body h
  exact ⟨htr, hbt, edit, b, hu, hbr⟩

/-- Witness for C8: the concrete track-update call of a successful run. -/
theorem C8_track_assignment_witness :
    ("internal" : String) = "internal" ∧
    (trackBodyFor "internal" 42).track = "internal" ∧
    ∃ (edit : EditResponse) (bundle_response : BundleResponse),
      svcAllOk.uploadBundle "com.pkg" edit.id "app.aab" = .ok bundle_response ∧
      (trackBodyFor "internal" 42).releases
        = [⟨[toString bundle_response.versionCode], "completed"⟩] :=
  C8_track_assignment "app.aab" "com.pkg" "internal" svcAllOk "com.pkg" "edit1"
    "internal" (trackBodyFor "internal" 42) (by decide)

/-- Claim C9: `--aab` and `--package-name` are required — argument
parsing fails when either is absent and the run stops there with the
argparse error exit and no network activity — while `--track` is
optional with default value "internal". -/
theorem C9_cli_contract (a : Args) :
    ((a.aab = none ∨ a.packageName = none) →
      parseArgs a = none ∧
      ∀ w : World, (Script.main a w).exitCode = 2 ∧
        (Script.main a w).defaultCalls = 0 ∧ (Script.main a w).calls = []) ∧
    (∀ aabPath pkg, a.aab = some aabPath → a.packageName = some pkg →
      parseArgs a = some ⟨aabPath, pkg, a.track.getD "internal"⟩) := by
  obtain ⟨aab?, pkg?, tr?⟩ := a
  constructor
  · intro habs
    have hn : parseArgs ⟨aab?, pkg?, tr?⟩ = none := by
      rcases habs with h | h
      · subst h
        cases pkg? <;> rfl
      · subst h
        cases aab? <;> rfl
    exact ⟨hn, fun w => by refine ⟨?_, ?_, ?_⟩ <;> simp [Script.main, hn]⟩
  · intro aabPath pkg h1 h2
    subst h1
    subst h2
    rfl

/-- Witness for C9: with `--aab` absent parsing fails and the run stops;
with both required flags present and `--track` absent the parsed track is
"internal". -/
theorem C9_cli_contract_witness :
    parseArgs ⟨none, some "com.pkg", none⟩ = none ∧
    ((Script.main ⟨none, some "com.pkg", none⟩ worldAllOk).exitCode = 2 ∧
     (Script.main ⟨none, some "com.pkg", none⟩ worldAllOk).defaultCalls = 0 ∧
     (Script.main ⟨none, some "com.pkg", none⟩ worldAllOk).calls = []) ∧
    parseArgs argsStd
      = some ⟨"app.aab", "com.pkg", (none : Option String).getD "internal"⟩ :=
  ⟨((C9_cli_contract ⟨none, some "com.pkg", none⟩).1 (Or.inl rfl)).1,
   ((C9_cli_contract ⟨none, some "com.pkg", none⟩).1 (Or.inl rfl)).2 worldAllOk,
   (C9_cli_contract argsStd).2 "app.aab" "com.pkg" rfl rfl⟩

/-- Claim C10: the track value is never validated against the closed set
of named channels: any string parses, and any string other than
"production" behaves as a non-production track, committed without the
hold flag. -/
theorem C10_track_unvalidated (track : String) (hne : track ≠ "production") :
    should_hold_for_manual_review track = false ∧
    (∀ aabPath pkg, parseArgs ⟨some aabPath, some pkg, some track⟩
        = some ⟨aabPath, pkg, track⟩) ∧
    (∀ aab_path package_name s p e hold,
      Call.commitEdit p e hold
          ∈ (upload_to_play_store aab_path package_name track s).calls →
      hold = false) := by
  have h1 : should_hold_for_manual_review track = false := by
    simpa [should_hold_for_manual_review] using hne
  refine ⟨h1, fun aabPath pkg => rfl,
    fun aab_path package_name s p e hold h => ?_⟩
  rw [commit_call_hold_eq aab_path package_name track s p e hold h, h1]

/-- Witness for C10: the unrecognised track "bogus" is accepted and
committed without the hold flag. -/
theorem C10_track_unvalidated_witness :
    should_hold_for_manual_review "bogus" = false ∧
    parseArgs ⟨some "app.aab", some "com.pkg", some "bogus"⟩
      = some ⟨"app.aab", "com.pkg", "bogus"⟩ ∧
    Call.commitEdit "com.pkg" "edit1" false
        ∈ (upload_to_play_store "app.aab" "com.pkg" "bogus" svcAllOk).calls ∧
    false = false :=
  ⟨(C10_track_unvalidated "bogus" (by decide)).1,
   (C10_track_unvalidated "bogus" (by decide)).2.1 "app.aab" "com.pkg",
   by decide,
   (C10_track_unvalidated "bogus" (by decide)).2.2 "app.aab" "com.pkg" svcAllOk
     "com.pkg" "edit1" false (by decide)⟩
